import Mathlib

/-!
Verification development for the Snowflake service-account portal
(src/streamlit_app.py, src/streamlit_app_tao.py).

Modelling conventions used throughout:
* Instants (Python `datetime` values) are integers counting seconds since
  the Unix epoch.  Python floor division and modulo on such integers are
  `Int.ediv` / `Int.emod` (identical for positive divisors).
* A `%Y-%m-%d` date string is represented by its civil day number (days
  since 1970-01-01); `daysFromCivil` is the standard civil-calendar
  conversion performed by the `datetime` library.  `strftime` of an
  instant `t` is the day number `t.ediv 86400`, and `strptime` of a date
  string is midnight of that day, i.e. second `day * 86400`.
* Where the source reads the wall clock more than once inside one
  operation (`datetime.now()` on two separate lines), the embedding takes
  the two reads as distinct parameters `t1`, `t2`.
* Fresh RSA key material produced inside an operation is passed to the
  embedded operation as explicit string parameters (the PEM texts), since
  key generation is nondeterministic.
-/

/-- Gregorian leap-year test, as used by Python `datetime`. -/
def isLeapYear (y : Int) : Bool :=
  y % 4 == 0 && (y % 100 != 0 || y % 400 == 0)

/-- Number of days in month `m` of year `y` (Python `datetime` validity rule). -/
def daysInMonth (y m : Int) : Int :=
  if m == 2 then (if isLeapYear y then 29 else 28)
  else if m == 4 || m == 6 || m == 9 || m == 11 then 30
  else 31

/-- Civil date to days since 1970-01-01 (the conversion performed by the
`datetime` library; standard days-from-civil algorithm). -/
def daysFromCivil (y m d : Int) : Int :=
  let yy := y - (if m ≤ 2 then 1 else 0)
  let era := yy / 400
  let yoe := yy - era * 400
  let doy := (153 * (m + (if 2 < m then -3 else 9)) + 2) / 5 + d - 1
  let doe := yoe * 365 + yoe / 4 - yoe / 100 + doy
  era * 146097 + doe - 719468

/-- True for an ASCII decimal digit. -/
def isDigitChar (c : Char) : Bool :=
  '0' ≤ c && c ≤ '9'

/-- Numeric value of a digit string (assumes all characters are digits). -/
def digitsToNat : List Char → Nat → Nat
  | [], acc => acc
  | c :: rest, acc => digitsToNat rest (acc * 10 + (c.toNat - '0'.toNat))

/-- Split a character list at every dash. -/
def splitDash : List Char → List (List Char)
  | [] => [[]]
  | c :: rest =>
    let parts := splitDash rest
    if c = '-' then [] :: parts
    else match parts with
      | [] => [[c]]
      | p :: ps => (c :: p) :: ps

/-- A dash-free run of one to `maxLen` digits, as matched by a `strptime`
field directive. -/
def digitField (cs : List Char) (maxLen : Nat) : Bool :=
  decide (0 < cs.length) && decide (cs.length ≤ maxLen) && cs.all isDigitChar

/-- Embedding of `datetime.strptime(s, "%Y-%m-%d")` (used at
src/streamlit_app_tao.py:270): on success, the parsed date as a civil day
number; `none` when the string does not parse as a valid calendar date
(which in the source raises `ValueError`). -/
def strptime_Ymd (s : String) : Option Int :=
  match splitDash s.toList with
  | [ys, ms, ds] =>
    if digitField ys 4 && digitField ms 2 && digitField ds 2 then
      let y : Int := Int.ofNat (digitsToNat ys 0)
      let m : Int := Int.ofNat (digitsToNat ms 0)
      let d : Int := Int.ofNat (digitsToNat ds 0)
      if 1 ≤ y ∧ 1 ≤ m ∧ m ≤ 12 ∧ 1 ≤ d ∧ d ≤ daysInMonth y m then
        some (daysFromCivil y m d)
      else none
    else none
  | _ => none

/-- Embedding of `calculate_days_until_expiry`
(src/streamlit_app_tao.py:267-274).  The source parses the expiry date,
subtracts `datetime.now()` and takes `.days` (floor); any exception (in
particular a parse failure) is swallowed by the bare `except` and `0` is
returned.  `nowSec` is the ambient `datetime.now()` instant. -/
def calculate_days_until_expiry (nowSec : Int) (expiry_date : String) : Int :=
  match strptime_Ymd expiry_date with
  | some day => (day * 86400 - nowSec) / 86400
  | none => 0

/-- Embedding of the status mutation in `display_service_account_card`
(src/streamlit_app_tao.py:290-297): the stored status is overwritten with
"expired" when at most 7 days remain, with "expiring_soon" when at most 30
remain, and is otherwise left unchanged. -/
def cardStatus (status : String) (days : Int) : String :=
  if days ≤ 7 then "expired"
  else if days ≤ 30 then "expiring_soon"
  else status

/-- Embedding of the expiry badge choice in `display_service_account_card`
(src/streamlit_app_tao.py:312-319), by badge colour/text category. -/
def statusBadge (days : Int) : String :=
  if days ≤ 0 then "EXPIRED"
  else if days ≤ 7 then "orange-days-left"
  else if days ≤ 30 then "yellow-days-left"
  else "green-days-left"

/-- Embedding of the per-card action buttons
(src/streamlit_app_tao.py:321-337): with a key, "rotate" is offered only
when at most 30 days remain, and "download" always; without a key only
"generate" is offered. -/
def card_actions (has_key : Bool) (days : Int) : List String :=
  if has_key then (if days ≤ 30 then ["rotate"] else []) ++ ["download"]
  else ["generate"]

/-- Values stored in a TAO service-account dictionary
(src/streamlit_app_tao.py MOCK_TAO_DATA entries): strings, booleans, and
date strings, the latter represented by their civil day number. -/
inductive Val where
  | str (s : String)
  | bool (b : Bool)
  | date (day : Int)
deriving DecidableEq

/-- A TAO service-account record: a Python dictionary, modelled as an
association list of string keys. -/
abbrev TaoAccount := List (String × Val)

/-- Dictionary read (`acc[key]`, `None` when absent). -/
def dget : TaoAccount → String → Option Val
  | [], _ => none
  | (k, v) :: rest, key => if key = k then some v else dget rest key

/-- Dictionary assignment (`acc[key] = v`): replaces the value in place
when the key exists, otherwise appends a new entry. -/
def dset : TaoAccount → String → Val → TaoAccount
  | [], key, v => [(key, v)]
  | (k, w) :: rest, key, v =>
    if k = key then (k, v) :: rest else (k, w) :: dset rest key v

/-- The first mock record from MOCK_TAO_DATA
(src/streamlit_app_tao.py:88-98). -/
def mock_account_tableau : TaoAccount :=
  [("username", Val.str "svc_tableau_prod_analytics"),
   ("purpose", Val.str "Tableau Production Dashboards"),
   ("environment", Val.str "PROD"),
   ("snowflake_role", Val.str "ANALYTICS_ROLE"),
   ("created_date", Val.date (daysFromCivil 2024 1 15)),
   ("key_expiry", Val.date (daysFromCivil 2024 7 15)),
   ("status", Val.str "active"),
   ("last_rotation", Val.date (daysFromCivil 2024 1 15)),
   ("has_key", Val.bool true)]

/-- Embedding of `MockSnowflakeManager.update_service_account_key`
(src/streamlit_app_tao.py:230-248): returns `False` when not connected,
otherwise logs and returns `True`. -/
def update_service_account_key (is_connected : Bool)
    (username public_key : String) : Bool :=
  is_connected

/-- The in-place record mutation of the rotate handler
(src/streamlit_app_tao.py:493-497): sets `last_rotation` to the date of
the first `datetime.now()` read `t1`, `key_expiry` to the date of the
second read `t2` plus `expiry_days` days, and `status` to "active".
No other key is touched; in particular nothing resembling a previous
public key or a grace deadline is written. -/
def rotate_update (t1 t2 expiry_days : Int) (acc : TaoAccount) : TaoAccount :=
  dset (dset (dset acc
    "last_rotation" (Val.date (t1 / 86400)))
    "key_expiry" (Val.date ((t2 + expiry_days * 86400) / 86400)))
    "status" (Val.str "active")

/-- The in-place record mutation of the generate handler
(src/streamlit_app_tao.py:423-428): additionally flips `has_key`. -/
def generate_update (t1 t2 expiry_days : Int) (acc : TaoAccount) : TaoAccount :=
  dset (dset (dset (dset acc
    "has_key" (Val.bool true))
    "last_rotation" (Val.date (t1 / 86400)))
    "key_expiry" (Val.date ((t2 + expiry_days * 86400) / 86400)))
    "status" (Val.str "active")

/-- Embedding of the rotate action handler
(src/streamlit_app_tao.py:482-519).  `priv`/`pub` are the freshly
generated PEM pair.  When the Snowflake update succeeds, every account of
the current user whose username matches is mutated by `rotate_update` and
both keys are offered for download; when it fails (`st.error` branch,
line 516) nothing is updated and nothing is offered. -/
def rotate_handler (is_connected : Bool) (t1 t2 expiry_days : Int)
    (target priv pub : String) (accounts : List TaoAccount) :
    List TaoAccount × Option (String × String) :=
  if update_service_account_key is_connected target pub then
    (accounts.map (fun acc =>
        if dget acc "username" = some (Val.str target)
        then rotate_update t1 t2 expiry_days acc else acc),
     some (priv, pub))
  else (accounts, none)

/-- Embedding of the generate action handler
(src/streamlit_app_tao.py:405-450), same control flow as the rotate
handler but mutating via `generate_update`. -/
def generate_handler (is_connected : Bool) (t1 t2 expiry_days : Int)
    (target priv pub : String) (accounts : List TaoAccount) :
    List TaoAccount × Option (String × String) :=
  if update_service_account_key is_connected target pub then
    (accounts.map (fun acc =>
        if dget acc "username" = some (Val.str target)
        then generate_update t1 t2 expiry_days acc else acc),
     some (priv, pub))
  else (accounts, none)

/-- The `account_data` dictionary built by the main portal
(src/streamlit_app.py:249-261); its fields are fixed, so it is embedded
as a structure.  `created_date` and `expiry_date` are instants in seconds
(the source stores their ISO renderings). -/
structure AccountRec where
  username : String
  purpose : String
  role : String
  requestor_name : String
  requestor_email : String
  business_justification : String
  private_key : String
  public_key : String
  created_date : Int
  expiry_date : Int
  created_in_snowflake : Bool
deriving DecidableEq

/-- Builds the `account_data` record of src/streamlit_app.py:249-261.
`t1` is the `datetime.now()` read on line 258 and `t2` the separate read
on line 259; the expiry is `t2` plus `expiry_days` days.
`provisioned` is the final value of `created_in_snowflake` after
lines 264-266. -/
def build_account_data (t1 t2 expiry_days : Int)
    (username purpose role requestor_name requestor_email
     business_justification private_key public_key : String)
    (provisioned : Bool) : AccountRec :=
  { username := username
    purpose := purpose
    role := role
    requestor_name := requestor_name
    requestor_email := requestor_email
    business_justification := business_justification
    private_key := private_key
    public_key := public_key
    created_date := t1
    expiry_date := t2 + expiry_days * 86400
    created_in_snowflake := provisioned }

/-- Observable outcome of one press of "Generate Account and Keys"
(src/streamlit_app.py:242-301): the session registry afterwards, the key
pair offered through the two download buttons, whether the
partial-success warning of line 269 was shown, and whether the
missing-fields error of line 301 was shown. -/
structure SingleGenResult where
  registry : List AccountRec
  delivered : Option (String × String)
  warned : Bool
  errored : Bool
deriving DecidableEq

/-- Embedding of the single-account creation path
(src/streamlit_app.py:242-301).  When the three required fields are
non-empty, the record is built and appended to
`st.session_state.accounts_created` unconditionally (line 271, with no
duplicate-username check); `created_in_snowflake` becomes true only when
connected and the Snowflake call succeeds; a failed Snowflake call only
produces a warning (line 269) while the keys are still offered for
download (lines 282-296). -/
def generate_single (registry : List AccountRec)
    (is_connected provision_ok : Bool) (t1 t2 expiry_days : Int)
    (username purpose role requestor_name requestor_email
     business_justification private_key public_key : String) :
    SingleGenResult :=
  if username.isEmpty || requestor_name.isEmpty || requestor_email.isEmpty then
    { registry := registry, delivered := none, warned := false, errored := true }
  else
    let acct := build_account_data t1 t2 expiry_days username purpose role
      requestor_name requestor_email business_justification
      private_key public_key (is_connected && provision_ok)
    { registry := registry ++ [acct]
      delivered := some (private_key, public_key)
      warned := is_connected && !provision_ok
      errored := false }

/-- Content of the export archive produced by `create_download_zip`
(src/streamlit_app.py:159-184): a summary table with one
(username, created date, role, purpose) row per stored account, plus one
private-key file per stored account, read from the record. -/
structure ZipContent where
  summary : List (String × Int × String × String)
  keyFiles : List (String × String)
deriving DecidableEq

/-- Embedding of `create_download_zip` (src/streamlit_app.py:159-184),
as invoked on the stored session registry from the Account Status tab
(src/streamlit_app.py:426-433). -/
def create_download_zip (accounts : List AccountRec) : ZipContent :=
  { summary := accounts.map (fun a => (a.username, a.created_date, a.role, a.purpose))
    keyFiles := accounts.map (fun a => (a.username ++ "_private_key.pem", a.private_key)) }

/-- One row of the Account Status listing table
(src/streamlit_app.py:410-420). -/
def listing_row (a : AccountRec) : List String :=
  [a.username, a.purpose, a.role, a.requestor_name,
   toString a.created_date, toString a.expiry_date,
   if a.created_in_snowflake then "Created" else "Pending"]

/-- Failure kinds for key-pair generation.  `InvalidParameter` is the
error the specification prescribes for a key size outside the enumerated
set; `GenerationFailed` is a raised library error. -/
inductive KeyGenError where
  | InvalidParameter
  | GenerationFailed
deriving DecidableEq

/-- An RSA key pair, abstracted to the parameters the source fixes. -/
structure RsaKeyPair where
  keySize : Nat
  publicExponent : Nat
deriving DecidableEq

/-- Embedding of `KeyPairGenerator.generate_key_pair`
(src/streamlit_app.py:66-97).  The source performs no key-size
validation of its own: `key_size` is passed straight to
`rsa.generate_private_key` with `public_exponent=65537`, and the only
failure mode is a raised library error (re-raised after logging), which
the `cryptography` library produces for sizes below its 512-bit minimum. -/
def generate_key_pair (key_size : Nat) : Except KeyGenError RsaKeyPair :=
  if 512 ≤ key_size then
    Except.ok { keySize := key_size, publicExponent := 65537 }
  else Except.error KeyGenError.GenerationFailed

/-- The key sizes offered by the UI select boxes
(src/streamlit_app.py:445, src/streamlit_app_tao.py:410,471). -/
def key_size_options : List Nat := [2048, 4096]

/-- One row of the uploaded bulk CSV together with the per-iteration
environment of the loop body (src/streamlit_app.py:342-368): the fresh
key pair generated for that row and the two clock reads of lines 360-361,
plus the outcome of the optional Snowflake call of lines 366-368. -/
structure BulkRow where
  username : String
  purpose : String
  role : String
  requestor_name : String
  requestor_email : String
  business_justification : String
  expiry_days : Int
  private_key : String
  public_key : String
  t1 : Int
  t2 : Int
  provisioned : Bool
deriving DecidableEq

/-- The `account_data` record built for one bulk row
(src/streamlit_app.py:351-363). -/
def buildBulkAccount (r : BulkRow) : AccountRec :=
  build_account_data r.t1 r.t2 r.expiry_days r.username r.purpose r.role
    r.requestor_name r.requestor_email r.business_justification
    r.private_key r.public_key r.provisioned

/-- One iteration of the bulk loop, abstracted over the element type:
the new record is appended to the batch list (`bulk_accounts.append`,
src/streamlit_app.py:370) and then the WHOLE accumulated batch list is
appended to the session registry (`accounts_created.extend(bulk_accounts)`,
src/streamlit_app.py:371) -- the extend sits inside the `for` loop.
State is (session registry, batch list). -/
def bulkAppendStep {α : Type} (st : List α × List α) (a : α) :
    List α × List α :=
  (st.1 ++ (st.2 ++ [a]), st.2 ++ [a])

/-- One iteration of the bulk loop on rows: build the record, then apply
the append/extend step of src/streamlit_app.py:370-371. -/
def bulkStepRow (st : List AccountRec × List AccountRec) (r : BulkRow) :
    List AccountRec × List AccountRec :=
  bulkAppendStep st (buildBulkAccount r)

/-- Embedding of the whole bulk-creation loop
(src/streamlit_app.py:340-371), starting from the session registry
`registry` and the empty `bulk_accounts` list of line 340; returns the
session registry after the loop. -/
def bulkCreateAccounts (registry : List AccountRec) (rows : List BulkRow) :
    List AccountRec :=
  (rows.foldl bulkStepRow (registry, [])).1

/-- Reading back the key just assigned yields the assigned value. -/
theorem dget_dset_self (d : TaoAccount) (k : String) (v : Val) :
    dget (dset d k v) k = some v := by
  induction d with
  | nil => simp [dset, dget]
  | cons p rest ih =>
    obtain ⟨k1, w⟩ := p
    by_cases h : k1 = k
    · simp [dset, dget, h]
    · simp only [dset, if_neg h, dget]
      rw [if_neg (fun hk => h hk.symm)]
      exact ih

/-- Assignment to one key leaves every other key unchanged. -/
theorem dget_dset_ne (d : TaoAccount) (k q : String) (v : Val)
    (h : q ≠ k) : dget (dset d k v) q = dget d q := by
  induction d with
  | nil => simp [dset, dget, h]
  | cons p rest ih =>
    obtain ⟨k1, w⟩ := p
    by_cases h1 : k1 = k
    · subst h1
      simp [dset, dget, h]
    · simp only [dset, if_neg h1, dget]
      by_cases h2 : q = k1
      · simp [h2]
      · simp [h2, ih]

/-- Flat-mapping after a map composes the functions. -/
theorem flatMap_map_comp {α β γ : Type} (l : List α) (f : α → β)
    (g : β → List γ) : (l.map f).flatMap g = l.flatMap (fun x => g (f x)) := by
  induction l with
  | nil => rfl
  | cons a t ih => simp [ih]

/-- Closed form of the bulk loop: after folding over `l`, the batch list
is `bulk ++ l`, and the registry has received, for each `k`, one copy of
the batch list as it stood after `k + 1` iterations. -/
theorem bulk_foldl_closed {α : Type} (l : List α) :
    ∀ reg bulk : List α,
      l.foldl bulkAppendStep (reg, bulk) =
        (reg ++ (List.range l.length).flatMap (fun k => bulk ++ l.take (k + 1)),
         bulk ++ l) := by
  induction l with
  | nil => intro reg bulk; simp
  | cons a t ih =>
    intro reg bulk
    show t.foldl bulkAppendStep (reg ++ (bulk ++ [a]), bulk ++ [a]) = _
    rw [ih]
    simp [List.range_succ_eq_map, flatMap_map_comp, List.append_assoc]

/-- Doubled length of the registry produced by the bulk loop. -/
theorem bulk_foldl_length {α : Type} (l : List α) :
    ∀ reg bulk : List α,
      2 * ((l.foldl bulkAppendStep (reg, bulk)).1).length =
        2 * reg.length + 2 * l.length * bulk.length +
          l.length * (l.length + 1) := by
  induction l with
  | nil => intro reg bulk; simp
  | cons a t ih =>
    intro reg bulk
    show 2 * ((t.foldl bulkAppendStep (reg ++ (bulk ++ [a]), bulk ++ [a])).1).length = _
    rw [ih]
    simp [List.length_append]
    ring

/-- In a duplicate-free list, the element at position `i` occurs in the
`m`-prefix exactly when `i < m`. -/
theorem count_take_nodup {α : Type} [DecidableEq α] (l : List α)
    (hnd : l.Nodup) (i : Nat) (hi : i < l.length) (m : Nat) :
    (l.take m).count (l.get ⟨i, hi⟩) = if i < m then 1 else 0 := by
  by_cases him : i < m
  · rw [if_pos him]
    have hlen : i < (l.take m).length := by
      simp only [List.length_take]
      omega
    have hget : (l.take m).get ⟨i, hlen⟩ = l.get ⟨i, hi⟩ := by
      simp only [List.get_eq_getElem]
      exact (List.getElem_take' l hi him).symm
    have hmem : l.get ⟨i, hi⟩ ∈ l.take m := hget ▸ List.get_mem _ _ _
    have h1 : 0 < (l.take m).count (l.get ⟨i, hi⟩) :=
      List.count_pos_iff.mpr hmem
    have h2 : (l.take m).count (l.get ⟨i, hi⟩) ≤ l.count (l.get ⟨i, hi⟩) :=
      (List.take_sublist m l).count_le _
    have h3 : l.count (l.get ⟨i, hi⟩) = 1 :=
      List.count_eq_one_of_mem hnd (List.get_mem _ _ _)
    omega
  · rw [if_neg him]
    rw [List.count_eq_zero]
    intro hmem
    obtain ⟨j, hget⟩ := List.mem_iff_get.mp hmem
    have hj : (j : Nat) < m := by
      have := j.isLt
      simp only [List.length_take] at this
      omega
    have hjl : (j : Nat) < l.length := by
      have := j.isLt
      simp only [List.length_take] at this
      omega
    have hgl : l.get ⟨j, hjl⟩ = l.get ⟨i, hi⟩ := by
      rw [← hget]
      simp only [List.get_eq_getElem]
      exact List.getElem_take' l hjl hj
    have hed : (⟨(j : Nat), hjl⟩ : Fin l.length) = ⟨i, hi⟩ :=
      (List.Nodup.get_inj_iff hnd).mp hgl
    have : (j : Nat) = i := congrArg Fin.val hed
    omega

/-- Occurrence count of the `i`-th element of a duplicate-free list in
the concatenation of its prefixes of lengths `1..n`. -/
theorem count_range_bind_take {α : Type} [DecidableEq α] (l : List α)
    (hnd : l.Nodup) (i : Nat) (hi : i < l.length) :
    ∀ n : Nat,
      ((List.range n).flatMap (fun k => l.take (k + 1))).count (l.get ⟨i, hi⟩)
        = n - i := by
  intro n
  induction n with
  | zero => simp
  | succ n ih =>
    rw [List.range_succ, List.flatMap_append]
    simp only [List.count_append, ih, List.flatMap_cons, List.flatMap_nil,
      List.append_nil]
    rw [count_take_nodup l hnd i hi (n + 1)]
    split
    · omega
    · omega

/-- The row-level bulk loop is the generic append/extend loop applied to
the built records. -/
theorem bulk_foldl_row_eq (rows : List BulkRow) :
    ∀ st : List AccountRec × List AccountRec,
      rows.foldl bulkStepRow st =
        (rows.map buildBulkAccount).foldl bulkAppendStep st := by
  induction rows with
  | nil => intro st; rfl
  | cons r t ih => intro st; exact ih _

/-- Claim C7 (corrected).  `KeyPairGenerator.generate_key_pair`
(src/streamlit_app.py:66-97) performs no key-size validation of its own:
every size accepted by the underlying library (at least 512 bits) yields
a key pair with public exponent 65537, including every size offered by
the UI select boxes; no `InvalidParameter` failure exists in the code,
the set 2048/4096 being enforced only as the select-box options. -/
theorem C7_keygen_no_validation :
    (∀ k ∈ key_size_options,
        generate_key_pair k =
          Except.ok { keySize := k, publicExponent := 65537 }) ∧
    (∀ k : Nat, 512 ≤ k →
        generate_key_pair k =
          Except.ok { keySize := k, publicExponent := 65537 }) := by
  constructor
  · intro k hk
    fin_cases hk <;> rfl
  · intro k hk
    simp [generate_key_pair, hk]

/-- Witness for C7_keygen_no_validation at the concrete size 2048. -/
theorem C7_keygen_no_validation_witness :
    2048 ∈ key_size_options ∧
    generate_key_pair 2048 =
      Except.ok { keySize := 2048, publicExponent := 65537 } :=
  ⟨by decide, C7_keygen_no_validation.1 2048 (by decide)⟩

/-- Counterexample for claim C7 as stated: the key size 3072 lies outside
the enumerated set 2048/4096, yet key-pair generation does not fail with
`InvalidParameter` -- it succeeds and produces a 3072-bit pair. -/
theorem C7_keygen_counterexample :
    generate_key_pair 3072 =
      Except.ok { keySize := 3072, publicExponent := 65537 } ∧
    generate_key_pair 3072 ≠ Except.error KeyGenError.InvalidParameter := by
  constructor
  · rfl
  · intro h
    simp [generate_key_pair] at h

/-- Claim C8 (corrected).  In the record built by the single-account
generate path (src/streamlit_app.py:258-259), the expiry and creation
timestamps come from two separate `datetime.now()` reads `t1` (line 258)
and `t2` (line 259): for any validity window in the permitted range
30..365 days, `expiresAt - createdAt` equals the window plus the time
elapsed between the two reads, and equals exactly the window only when
the two reads coincide. -/
theorem C8_expiry_window (t1 t2 expiry_days : Int)
    (username purpose role rname remail bj priv pub : String) (p : Bool)
    (h30 : 30 ≤ expiry_days) (h365 : expiry_days ≤ 365) :
    (build_account_data t1 t2 expiry_days username purpose role rname remail
        bj priv pub p).expiry_date -
      (build_account_data t1 t2 expiry_days username purpose role rname remail
        bj priv pub p).created_date = expiry_days * 86400 + (t2 - t1) ∧
    (t1 = t2 →
      (build_account_data t1 t2 expiry_days username purpose role rname remail
          bj priv pub p).expiry_date -
        (build_account_data t1 t2 expiry_days username purpose role rname remail
          bj priv pub p).created_date = expiry_days * 86400) := by
  constructor
  · simp [build_account_data]
    ring
  · intro h
    subst h
    simp [build_account_data]

/-- Witness for C8_expiry_window with coinciding clock reads. -/
theorem C8_expiry_window_witness :
    (30 : Int) ≤ 90 ∧ (90 : Int) ≤ 365 ∧
    ((build_account_data 0 0 90 "svc_a" "T" "R" "N" "E" "B" "PRIV" "PUB"
        false).expiry_date -
      (build_account_data 0 0 90 "svc_a" "T" "R" "N" "E" "B" "PRIV" "PUB"
        false).created_date = 90 * 86400 + (0 - 0)) :=
  ⟨by decide, by decide,
    (C8_expiry_window 0 0 90 "svc_a" "T" "R" "N" "E" "B" "PRIV" "PUB" false
      (by decide) (by decide)).1⟩

/-- Counterexample for claim C8 as stated: with validityDays = 90 in
[30, 365] and the second clock read one second after the first, the
record produced by generate has `expiresAt - createdAt` equal to 90 days
plus one second, not exactly 90 days. -/
theorem C8_expiry_window_counterexample :
    (30 : Int) ≤ 90 ∧ (90 : Int) ≤ 365 ∧
    ((generate_single [] false false 0 1 90 "svc_a" "T" "R" "N" "E" "B"
        "PRIV" "PUB").registry.map
      (fun a => a.expiry_date - a.created_date)) = [90 * 86400 + 1] ∧
    (90 * 86400 + 1 : Int) ≠ 90 * 86400 := by
  refine ⟨by decide, by decide, ?_, by decide⟩
  decide

/-- Claim C10 (confirmed).  `calculate_days_until_expiry`
(src/streamlit_app_tao.py:267-274) is total -- the embedding returns an
integer for every input string -- and on any string that does not parse
as a %Y-%m-%d date the bare `except` yields 0, so a malformed expiry date
is classified as expiring today: the card logic marks the record
"expired" and shows the EXPIRED badge. -/
theorem C10_total_parse_failure (nowSec : Int) (s : String) (old : String)
    (hp : strptime_Ymd s = none) :
    calculate_days_until_expiry nowSec s = 0 ∧
    cardStatus old (calculate_days_until_expiry nowSec s) = "expired" ∧
    statusBadge (calculate_days_until_expiry nowSec s) = "EXPIRED" := by
  simp [calculate_days_until_expiry, hp, cardStatus, statusBadge]

/-- Witness for C10_total_parse_failure on a malformed date string. -/
theorem C10_total_parse_failure_witness :
    strptime_Ymd "not-a-date" = none ∧
    (calculate_days_until_expiry 0 "not-a-date" = 0 ∧
      cardStatus "active" (calculate_days_until_expiry 0 "not-a-date") =
        "expired" ∧
      statusBadge (calculate_days_until_expiry 0 "not-a-date") = "EXPIRED") :=
  ⟨by decide, C10_total_parse_failure 0 "not-a-date" "active" (by decide)⟩

/-- Claim C4 (corrected).  The status classification of
`display_service_account_card` (src/streamlit_app_tao.py:286-297) is
driven by the floored day count: for a parsed expiry date, the stored
status becomes "expired" exactly when less than 8 days remain to the
expiry midnight (not when `now >= expiresAt`), "expiring_soon" exactly
when between 8 and just under 31 days remain, and is otherwise left as
stored; so a credential with 1..7 days remaining is classified
"expired", not "expiring_soon". -/
theorem C4_card_classification (old : String) (nowSec day : Int) (s : String)
    (hp : strptime_Ymd s = some day) :
    cardStatus old (calculate_days_until_expiry nowSec s) =
      if day * 86400 - nowSec < 8 * 86400 then "expired"
      else if day * 86400 - nowSec < 31 * 86400 then "expiring_soon"
      else old := by
  have h1 := Int.ediv_add_emod (day * 86400 - nowSec) 86400
  have h2 := Int.emod_nonneg (day * 86400 - nowSec)
    (by norm_num : (86400 : Int) ≠ 0)
  have h3 := Int.emod_lt_of_pos (day * 86400 - nowSec)
    (by norm_num : (0 : Int) < 86400)
  simp only [calculate_days_until_expiry, hp, cardStatus]
  split_ifs <;> first | rfl | omega

/-- Witness for C4_card_classification: far-future expiry keeps the
stored status. -/
theorem C4_card_classification_witness :
    strptime_Ymd "2024-06-15" = some 19889 ∧
    cardStatus "active" (calculate_days_until_expiry 0 "2024-06-15") =
      (if (19889 : Int) * 86400 - 0 < 8 * 86400 then "expired"
       else if (19889 : Int) * 86400 - 0 < 31 * 86400 then "expiring_soon"
       else "active") :=
  ⟨by decide, C4_card_classification "active" 0 19889 "2024-06-15" (by decide)⟩

/-- Counterexample for claim C4 as stated: five days before expiry
(0 < remaining <= 30 days, so the claim demands ExpiringSoon and
certainly not Expired), the card logic classifies the credential
"expired". -/
theorem C4_card_counterexample :
    0 < 86400 * daysFromCivil 2024 6 15 - 86400 * daysFromCivil 2024 6 10 ∧
    86400 * daysFromCivil 2024 6 15 - 86400 * daysFromCivil 2024 6 10 ≤
      30 * 86400 ∧
    cardStatus "active"
      (calculate_days_until_expiry (86400 * daysFromCivil 2024 6 10)
        "2024-06-15") = "expired" := by
  refine ⟨by decide, by decide, by decide⟩

/-- Claim C1 (corrected).  The single-account generate path delivers the
plaintext private key to the caller AND retains it: the record appended
to the session registry (src/streamlit_app.py:256,271) carries
`private_key` in plaintext, and the export path reachable from the
Account Status tab (src/streamlit_app.py:426-433 calling
`create_download_zip`) reads it back from the stored state.  Only the
listing table and the summary table omit the private key. -/
theorem C1_private_key_retained (registry : List AccountRec)
    (is_connected provision_ok : Bool) (t1 t2 expiry_days : Int)
    (username purpose role rname remail bj priv pub : String)
    (hu : username.isEmpty = false) (hn : rname.isEmpty = false)
    (he : remail.isEmpty = false) :
    (∃ acct : AccountRec,
      (generate_single registry is_connected provision_ok t1 t2 expiry_days
          username purpose role rname remail bj priv pub).registry =
        registry ++ [acct] ∧
      acct.private_key = priv ∧
      (acct.username ++ "_private_key.pem", priv) ∈
        (create_download_zip
          (generate_single registry is_connected provision_ok t1 t2
            expiry_days username purpose role rname remail bj priv
            pub).registry).keyFiles) ∧
    (generate_single registry is_connected provision_ok t1 t2 expiry_days
        username purpose role rname remail bj priv pub).delivered =
      some (priv, pub) ∧
    (∀ (a : AccountRec) (p : String),
      listing_row { a with private_key := p } = listing_row a) ∧
    (∀ (a : AccountRec) (p : String),
      (create_download_zip [{ a with private_key := p }]).summary =
        (create_download_zip [a]).summary) := by
  have hreg : (generate_single registry is_connected provision_ok t1 t2
      expiry_days username purpose role rname remail bj priv pub).registry =
      registry ++ [build_account_data t1 t2 expiry_days username purpose role
        rname remail bj priv pub (is_connected && provision_ok)] := by
    simp [generate_single, hu, hn, he]
  have hdel : (generate_single registry is_connected provision_ok t1 t2
      expiry_days username purpose role rname remail bj priv pub).delivered =
      some (priv, pub) := by
    simp [generate_single, hu, hn, he]
  refine ⟨⟨build_account_data t1 t2 expiry_days username purpose role rname
      remail bj priv pub (is_connected && provision_ok), hreg, rfl, ?_⟩,
    hdel, ?_, ?_⟩
  · rw [hreg]
    simp [create_download_zip, build_account_data]
  · intro a p
    simp [listing_row]
  · intro a p
    simp [create_download_zip]

/-- Witness for C1_private_key_retained at concrete inputs. -/
theorem C1_private_key_retained_witness :
    ("svc_a".isEmpty = false ∧ "Jane".isEmpty = false ∧
      "jane".isEmpty = false) ∧
    ((∃ acct : AccountRec,
      (generate_single [] false false 0 0 90 "svc_a" "Tableau" "PUBLIC"
          "Jane" "jane" "test" "PRIVKEY" "PUBKEY").registry = [] ++ [acct] ∧
      acct.private_key = "PRIVKEY" ∧
      (acct.username ++ "_private_key.pem", "PRIVKEY") ∈
        (create_download_zip
          (generate_single [] false false 0 0 90 "svc_a" "Tableau" "PUBLIC"
            "Jane" "jane" "test" "PRIVKEY" "PUBKEY").registry).keyFiles) ∧
    (generate_single [] false false 0 0 90 "svc_a" "Tableau" "PUBLIC"
        "Jane" "jane" "test" "PRIVKEY" "PUBKEY").delivered =
      some ("PRIVKEY", "PUBKEY") ∧
    (∀ (a : AccountRec) (p : String),
      listing_row { a with private_key := p } = listing_row a) ∧
    (∀ (a : AccountRec) (p : String),
      (create_download_zip [{ a with private_key := p }]).summary =
        (create_download_zip [a]).summary)) :=
  ⟨⟨by decide, by decide, by decide⟩,
    C1_private_key_retained [] false false 0 0 90 "svc_a" "Tableau" "PUBLIC"
      "Jane" "jane" "test" "PRIVKEY" "PUBKEY" (by decide) (by decide)
      (by decide)⟩

/-- Counterexample for claim C1 as stated: after one generate call the
stored session registry carries the plaintext private key, and the export
operation reads it back from stored state. -/
theorem C1_private_key_counterexample :
    ((generate_single [] false false 0 0 90 "svc_a" "Tableau" "PUBLIC"
        "Jane" "jane" "test" "PRIVKEY" "PUBKEY").registry.map
      AccountRec.private_key) = ["PRIVKEY"] ∧
    ("svc_a_private_key.pem", "PRIVKEY") ∈
      (create_download_zip
        (generate_single [] false false 0 0 90 "svc_a" "Tableau" "PUBLIC"
          "Jane" "jane" "test" "PRIVKEY" "PUBKEY").registry).keyFiles := by
  refine ⟨by decide, by decide⟩

/-- Claim C6 (corrected).  The single-account create path performs no
duplicate-username check (src/streamlit_app.py:242-271): whenever the
required fields are non-empty the new record is appended unconditionally
and no error is reported, so a username already present afterwards occurs
at least twice and usernames are not unique in the session registry. -/
theorem C6_no_duplicate_check (registry : List AccountRec)
    (is_connected provision_ok : Bool) (t1 t2 expiry_days : Int)
    (username purpose role rname remail bj priv pub : String)
    (hu : username.isEmpty = false) (hn : rname.isEmpty = false)
    (he : remail.isEmpty = false) :
    (generate_single registry is_connected provision_ok t1 t2 expiry_days
        username purpose role rname remail bj priv pub).registry =
      registry ++ [build_account_data t1 t2 expiry_days username purpose role
        rname remail bj priv pub (is_connected && provision_ok)] ∧
    (generate_single registry is_connected provision_ok t1 t2 expiry_days
        username purpose role rname remail bj priv pub).errored = false ∧
    (username ∈ registry.map AccountRec.username →
      2 ≤ ((generate_single registry is_connected provision_ok t1 t2
          expiry_days username purpose role rname remail bj priv
          pub).registry.map AccountRec.username).count username) := by
  have hreg : (generate_single registry is_connected provision_ok t1 t2
      expiry_days username purpose role rname remail bj priv pub).registry =
      registry ++ [build_account_data t1 t2 expiry_days username purpose role
        rname remail bj priv pub (is_connected && provision_ok)] := by
    simp [generate_single, hu, hn, he, build_account_data]
  refine ⟨hreg, by simp [generate_single, hu, hn, he], ?_⟩
  intro hmem
  rw [hreg]
  have h1 : 0 < (registry.map AccountRec.username).count username :=
    List.count_pos_iff.mpr hmem
  have h2 : ((registry ++ [build_account_data t1 t2 expiry_days username
      purpose role rname remail bj priv pub
      (is_connected && provision_ok)]).map AccountRec.username).count
      username = (registry.map AccountRec.username).count username + 1 := by
    simp [build_account_data]
  omega

/-- Witness for C6_no_duplicate_check: a second create with an already
present username. -/
theorem C6_no_duplicate_check_witness :
    ("svc_a".isEmpty = false) ∧
    ((generate_single
        [build_account_data 0 0 90 "svc_a" "T" "R" "N" "E" "B" "P1" "Q1"
          false] false false 0 0 90 "svc_a" "T" "R" "N" "E" "B" "P2"
        "Q2").registry =
      [build_account_data 0 0 90 "svc_a" "T" "R" "N" "E" "B" "P1" "Q1"
        false] ++ [build_account_data 0 0 90 "svc_a" "T" "R" "N" "E" "B"
        "P2" "Q2" (false && false)] ∧
    (generate_single
        [build_account_data 0 0 90 "svc_a" "T" "R" "N" "E" "B" "P1" "Q1"
          false] false false 0 0 90 "svc_a" "T" "R" "N" "E" "B" "P2"
        "Q2").errored = false ∧
    ("svc_a" ∈ ([build_account_data 0 0 90 "svc_a" "T" "R" "N" "E" "B" "P1"
        "Q1" false]).map AccountRec.username →
      2 ≤ ((generate_single
          [build_account_data 0 0 90 "svc_a" "T" "R" "N" "E" "B" "P1" "Q1"
            false] false false 0 0 90 "svc_a" "T" "R" "N" "E" "B" "P2"
          "Q2").registry.map AccountRec.username).count "svc_a")) :=
  ⟨by decide,
    C6_no_duplicate_check
      [build_account_data 0 0 90 "svc_a" "T" "R" "N" "E" "B" "P1" "Q1"
        false] false false 0 0 90 "svc_a" "T" "R" "N" "E" "B" "P2" "Q2"
      (by decide) (by decide) (by decide)⟩

/-- Counterexample for claim C6 as stated: creating "svc_a" twice
succeeds both times (no DuplicateUsername failure, the registry is
changed), leaving two records with the same username. -/
theorem C6_duplicate_counterexample :
    (((generate_single
        (generate_single [] false false 0 0 90 "svc_a" "T" "R" "N" "E" "B"
          "P1" "Q1").registry false false 0 0 90 "svc_a" "T" "R" "N" "E"
        "B" "P2" "Q2").registry.map AccountRec.username).count "svc_a"
      = 2) ∧
    (generate_single
        (generate_single [] false false 0 0 90 "svc_a" "T" "R" "N" "E" "B"
          "P1" "Q1").registry false false 0 0 90 "svc_a" "T" "R" "N" "E"
        "B" "P2" "Q2").errored = false := by
  refine ⟨by decide, by decide⟩

/-- Claim C3 (corrected).  The two portals disagree.  In the main
portal's single-account generate (src/streamlit_app.py:264-271) a failed
Snowflake provisioning call does not abort: the record is still appended
with `created_in_snowflake = false`, the fresh keys are still offered for
download, and the outcome is the distinct warning of line 269 rather than
an error.  In the TAO portal (src/streamlit_app_tao.py:419-447 and
488-517) a failed provisioning call aborts the whole update: the local
record is left untouched and the freshly generated private key is NOT
offered to the caller. -/
theorem C3_provisioning_failure :
    (∀ (registry : List AccountRec) (t1 t2 expiry_days : Int)
        (username purpose role rname remail bj priv pub : String),
      username.isEmpty = false → rname.isEmpty = false →
      remail.isEmpty = false →
      (generate_single registry true false t1 t2 expiry_days username
          purpose role rname remail bj priv pub).registry =
        registry ++ [build_account_data t1 t2 expiry_days username purpose
          role rname remail bj priv pub false] ∧
      (build_account_data t1 t2 expiry_days username purpose role rname
        remail bj priv pub false).created_in_snowflake = false ∧
      (generate_single registry true false t1 t2 expiry_days username
          purpose role rname remail bj priv pub).delivered =
        some (priv, pub) ∧
      (generate_single registry true false t1 t2 expiry_days username
          purpose role rname remail bj priv pub).warned = true ∧
      (generate_single registry true false t1 t2 expiry_days username
          purpose role rname remail bj priv pub).errored = false) ∧
    (∀ (t1 t2 expiry_days : Int) (target priv pub : String)
        (accounts : List TaoAccount),
      rotate_handler false t1 t2 expiry_days target priv pub accounts =
        (accounts, none)) ∧
    (∀ (t1 t2 expiry_days : Int) (target priv pub : String)
        (accounts : List TaoAccount),
      generate_handler false t1 t2 expiry_days target priv pub accounts =
        (accounts, none)) := by
  refine ⟨?_, ?_, ?_⟩
  · intro registry t1 t2 expiry_days username purpose role rname remail bj
      priv pub hu hn he
    refine ⟨?_, rfl, ?_, ?_, ?_⟩ <;> simp [generate_single, hu, hn, he]
  · intro t1 t2 expiry_days target priv pub accounts
    rfl
  · intro t1 t2 expiry_days target priv pub accounts
    rfl

/-- Witness for C3_provisioning_failure at concrete inputs. -/
theorem C3_provisioning_failure_witness :
    ((generate_single [] true false 0 0 90 "svc_a" "T" "R" "N" "E" "B"
        "PRIV" "PUB").warned = true) ∧
    rotate_handler false 0 0 90 "svc_x" "PRIV" "PUB" [mock_account_tableau]
      = ([mock_account_tableau], none) :=
  ⟨(C3_provisioning_failure.1 [] 0 0 90 "svc_a" "T" "R" "N" "E" "B" "PRIV"
      "PUB" (by decide) (by decide) (by decide)).2.2.2.1,
    C3_provisioning_failure.2.1 0 0 90 "svc_x" "PRIV" "PUB"
      [mock_account_tableau]⟩

/-- Counterexample for claim C3 as stated: in the TAO rotate handler a
provisioning failure leaves the mock record completely unchanged (status
still "active" with the old expiry, no new timestamps) and the freshly
generated private key is not returned -- the operation does abort,
contradicting the claim for this generate/rotate path. -/
theorem C3_provisioning_counterexample :
    rotate_handler false 0 0 90 "svc_tableau_prod_analytics" "NEWPRIV"
      "NEWPUB" [mock_account_tableau] = ([mock_account_tableau], none) ∧
    (rotate_handler false 0 0 90 "svc_tableau_prod_analytics" "NEWPRIV"
      "NEWPUB" [mock_account_tableau]).2 ≠
      some ("NEWPRIV", "NEWPUB") := by
  refine ⟨rfl, by decide⟩

/-- Claim C2 (corrected).  A successful rotation
(src/streamlit_app_tao.py:493-497) updates exactly three keys of the
record -- `last_rotation` (to the date of the clock read of line 495),
`key_expiry` (to the date of the clock read of line 496 plus the chosen
validity days) and `status` (to "active") -- and leaves every other key
untouched.  No `previousPublicKeyPEM` and no `previousKeyGraceUntil`
field is ever written (no public-key material is stored in these records
at all); the 24-hour grace window exists only as informational text
(src/streamlit_app_tao.py:480,490). -/
theorem C2_rotate_fields (acc : TaoAccount) (t1 t2 expiry_days : Int) :
    dget (rotate_update t1 t2 expiry_days acc) "status" =
      some (Val.str "active") ∧
    dget (rotate_update t1 t2 expiry_days acc) "key_expiry" =
      some (Val.date ((t2 + expiry_days * 86400) / 86400)) ∧
    dget (rotate_update t1 t2 expiry_days acc) "last_rotation" =
      some (Val.date (t1 / 86400)) ∧
    ∀ k : String, k ≠ "status" → k ≠ "key_expiry" → k ≠ "last_rotation" →
      dget (rotate_update t1 t2 expiry_days acc) k = dget acc k := by
  refine ⟨?_, ?_, ?_, ?_⟩
  · exact dget_dset_self _ _ _
  · rw [rotate_update, dget_dset_ne _ _ _ _ (by decide)]
    exact dget_dset_self _ _ _
  · rw [rotate_update, dget_dset_ne _ _ _ _ (by decide),
      dget_dset_ne _ _ _ _ (by decide)]
    exact dget_dset_self _ _ _
  · intro k h1 h2 h3
    rw [rotate_update, dget_dset_ne _ _ _ _ h1, dget_dset_ne _ _ _ _ h2,
      dget_dset_ne _ _ _ _ h3]

/-- Witness for C2_rotate_fields on the first mock record: the updated
fields take the stated values and an untouched key such as `username`
keeps its value. -/
theorem C2_rotate_fields_witness :
    dget (rotate_update 0 0 90 mock_account_tableau) "status" =
      some (Val.str "active") ∧
    dget (rotate_update 0 0 90 mock_account_tableau) "username" =
      dget mock_account_tableau "username" :=
  ⟨(C2_rotate_fields mock_account_tableau 0 0 90).1,
    (C2_rotate_fields mock_account_tableau 0 0 90).2.2.2 "username"
      (by decide) (by decide) (by decide)⟩

/-- Counterexample for claim C2 as stated: after a successful rotation of
the first mock record, the record holds no `previousKeyGraceUntil` and no
`previousPublicKeyPEM` at all (both reads give none), even though the
rotation itself did succeed (status is "active"). -/
theorem C2_no_grace_counterexample :
    dget (rotate_update 0 0 90 mock_account_tableau)
      "previousKeyGraceUntil" = none ∧
    dget (rotate_update 0 0 90 mock_account_tableau)
      "previousPublicKeyPEM" = none ∧
    dget (rotate_update 0 0 90 mock_account_tableau) "status" =
      some (Val.str "active") := by
  refine ⟨by decide, by decide, by decide⟩

/-- Claim C5 (corrected).  The rotate affordance is gated: the card of
src/streamlit_app_tao.py:321-337 offers "rotate" exactly for records
that have a key and at most 30 days remaining -- so rotation cannot be
invoked from the fresh Active tier, contrary to "legal from every status
tier".  From any state where it is offered (including an already-expired
credential) a rotation with successful provisioning does succeed: every
matching record gets status "active" and a key expiry `validityDays`
ahead of the clock read, whose midnight lies strictly in the future, and
the fresh private key is returned. -/
theorem C5_rotate_gate_and_effect :
    (∀ (hk : Bool) (days : Int),
      "rotate" ∈ card_actions hk days ↔ (hk = true ∧ days ≤ 30)) ∧
    (∀ (acc : TaoAccount) (t1 t2 expiry_days : Int), 30 ≤ expiry_days →
      dget (rotate_update t1 t2 expiry_days acc) "status" =
        some (Val.str "active") ∧
      dget (rotate_update t1 t2 expiry_days acc) "key_expiry" =
        some (Val.date ((t2 + expiry_days * 86400) / 86400)) ∧
      t2 < 86400 * ((t2 + expiry_days * 86400) / 86400)) ∧
    (∀ (t1 t2 expiry_days : Int) (target priv pub : String)
        (accounts : List TaoAccount),
      rotate_handler true t1 t2 expiry_days target priv pub accounts =
        (accounts.map (fun acc =>
          if dget acc "username" = some (Val.str target)
          then rotate_update t1 t2 expiry_days acc else acc),
         some (priv, pub))) := by
  refine ⟨?_, ?_, ?_⟩
  · intro hk days
    cases hk
    · simp [card_actions]
    · by_cases h : days ≤ 30 <;> simp [card_actions, h]
  · intro acc t1 t2 expiry_days hd
    have hfut : t2 < 86400 * ((t2 + expiry_days * 86400) / 86400) := by
      have h1 := Int.ediv_add_emod (t2 + expiry_days * 86400) 86400
      have h2 := Int.emod_nonneg (t2 + expiry_days * 86400)
        (by norm_num : (86400 : Int) ≠ 0)
      have h3 := Int.emod_lt_of_pos (t2 + expiry_days * 86400)
        (by norm_num : (0 : Int) < 86400)
      omega
    refine ⟨dget_dset_self _ _ _, ?_, hfut⟩
    rw [rotate_update, dget_dset_ne _ _ _ _ (by decide)]
    exact dget_dset_self _ _ _
  · intro t1 t2 expiry_days target priv pub accounts
    rfl

/-- Witness for C5_rotate_gate_and_effect: rotating an already-expired
mock credential (0 days or fewer remaining satisfies the gate) with a
90-day window. -/
theorem C5_rotate_witness :
    (30 : Int) ≤ 90 ∧
    (dget (rotate_update 0 0 90 mock_account_tableau) "status" =
        some (Val.str "active") ∧
      dget (rotate_update 0 0 90 mock_account_tableau) "key_expiry" =
        some (Val.date ((0 + 90 * 86400) / 86400)) ∧
      (0 : Int) < 86400 * ((0 + 90 * 86400) / 86400)) :=
  ⟨by decide,
    C5_rotate_gate_and_effect.2.1 mock_account_tableau 0 0 90 (by decide)⟩

/-- Counterexample for claim C5 as stated: for a credential in the fresh
Active tier (100 days remaining, key present) the card offers no rotate
action at all -- rotation is not legal from every status tier. -/
theorem C5_rotate_counterexample :
    "rotate" ∉ card_actions true 100 ∧
    card_actions true 100 = ["download"] := by
  refine ⟨by decide, by decide⟩

/-- Claim C9 (confirmed).  In the bulk-creation path
(src/streamlit_app.py:340-371) the `extend` of line 371 sits inside the
row loop, so after processing `n >= 2` rows the session registry has
received strictly more than `n` records; with all usernames distinct, the
record built from the row at 0-based index `i` appears exactly `n - i`
times (that is, `n - i + 1` times for the 1-based row number `i + 1`),
producing duplicate usernames even though the input usernames were
distinct. -/
theorem C9_bulk_duplication (registry : List AccountRec)
    (rows : List BulkRow) (h2 : 2 ≤ rows.length)
    (hnd : (rows.map BulkRow.username).Nodup) :
    rows.length < (bulkCreateAccounts registry rows).length ∧
    ∀ (i : Nat) (hi : i < rows.length),
      (bulkCreateAccounts [] rows).count
        (buildBulkAccount (rows.get ⟨i, hi⟩)) = rows.length - i := by
  have hmaplen : (rows.map buildBulkAccount).length = rows.length :=
    List.length_map _ _
  constructor
  · have hlen := bulk_foldl_length (rows.map buildBulkAccount) registry []
    rw [bulkCreateAccounts, bulk_foldl_row_eq]
    rw [hmaplen] at hlen
    have hq : 2 * rows.length ≤ rows.length * rows.length :=
      Nat.mul_le_mul_right rows.length h2
    have hexp : rows.length * (rows.length + 1) =
        rows.length * rows.length + rows.length := by ring
    omega
  · intro i hi
    have hnd2 : (rows.map buildBulkAccount).Nodup := by
      apply List.Nodup.of_map AccountRec.username
      have hcomp : ((rows.map buildBulkAccount).map AccountRec.username) =
          rows.map BulkRow.username := by
        rw [List.map_map]
        rfl
      rw [hcomp]
      exact hnd
    have hi2 : i < (rows.map buildBulkAccount).length := by
      rw [hmaplen]
      exact hi
    have hget : (rows.map buildBulkAccount).get ⟨i, hi2⟩ =
        buildBulkAccount (rows.get ⟨i, hi⟩) := by
      simp
    have hcount := count_range_bind_take (rows.map buildBulkAccount) hnd2 i
      hi2 (rows.map buildBulkAccount).length
    rw [bulkCreateAccounts, bulk_foldl_row_eq,
      bulk_foldl_closed (rows.map buildBulkAccount) [] []]
    simp only [List.nil_append]
    rw [hget, hmaplen] at hcount
    rw [hmaplen]
    exact hcount

/-- Witness for C9_bulk_duplication on a concrete two-row upload: the
registry receives three records, the first row twice and the second
once. -/
theorem C9_bulk_duplication_witness :
    (2 ≤ ([⟨"svc_a", "T", "R", "N", "E", "B", 90, "P1", "Q1", 0, 0, false⟩,
        ⟨"svc_b", "T", "R", "N", "E", "B", 60, "P2", "Q2", 0, 0, false⟩] :
          List BulkRow).length ∧
      (([⟨"svc_a", "T", "R", "N", "E", "B", 90, "P1", "Q1", 0, 0, false⟩,
        ⟨"svc_b", "T", "R", "N", "E", "B", 60, "P2", "Q2", 0, 0, false⟩] :
          List BulkRow).map BulkRow.username).Nodup) ∧
    (([⟨"svc_a", "T", "R", "N", "E", "B", 90, "P1", "Q1", 0, 0, false⟩,
        ⟨"svc_b", "T", "R", "N", "E", "B", 60, "P2", "Q2", 0, 0, false⟩] :
          List BulkRow).length <
      (bulkCreateAccounts []
        [⟨"svc_a", "T", "R", "N", "E", "B", 90, "P1", "Q1", 0, 0, false⟩,
         ⟨"svc_b", "T", "R", "N", "E", "B", 60, "P2", "Q2", 0, 0,
           false⟩]).length ∧
      ∀ (i : Nat)
        (hi : i < ([⟨"svc_a", "T", "R", "N", "E", "B", 90, "P1", "Q1", 0, 0,
            false⟩, ⟨"svc_b", "T", "R", "N", "E", "B", 60, "P2", "Q2", 0, 0,
            false⟩] : List BulkRow).length),
        (bulkCreateAccounts []
          [⟨"svc_a", "T", "R", "N", "E", "B", 90, "P1", "Q1", 0, 0, false⟩,
           ⟨"svc_b", "T", "R", "N", "E", "B", 60, "P2", "Q2", 0, 0,
             false⟩]).count
          (buildBulkAccount
            (([⟨"svc_a", "T", "R", "N", "E", "B", 90, "P1", "Q1", 0, 0,
              false⟩, ⟨"svc_b", "T", "R", "N", "E", "B", 60, "P2", "Q2", 0,
              0, false⟩] : List BulkRow).get ⟨i, hi⟩)) =
          ([⟨"svc_a", "T", "R", "N", "E", "B", 90, "P1", "Q1", 0, 0, false⟩,
            ⟨"svc_b", "T", "R", "N", "E", "B", 60, "P2", "Q2", 0, 0,
              false⟩] : List BulkRow).length - i) :=
  ⟨⟨by decide, by decide⟩,
    C9_bulk_duplication []
      [⟨"svc_a", "T", "R", "N", "E", "B", 90, "P1", "Q1", 0, 0, false⟩,
       ⟨"svc_b", "T", "R", "N", "E", "B", 60, "P2", "Q2", 0, 0, false⟩]
      (by decide) (by decide)⟩
